import Mathlib

/-!
# Verification of the fitness-tracker calculator (`homework.py`)

Shallow embedding of the module: the class hierarchy `Training` /
`Running` / `SportsWalking` / `Swimming` becomes a tagged variant,
Python float arithmetic is modelled exactly over `ℚ`, and Python
exceptions (KeyError on dictionary lookup, TypeError on wrong
constructor arity or on formatting `None`, ZeroDivisionError) become
an explicit error type threaded through `Except`.
-/

/-- Python exceptions that the module can raise, as an explicit error type.
`keyError` is the KeyError raised by the dictionary lookup in
`read_package` on an unknown workout-type code — the condition the spec
calls "UnsupportedWorkoutType".  `typeError` is the TypeError raised on a
constructor-arity mismatch or on formatting `None` with `:.3f` — grouped
by the spec under "InvalidInput".  `zeroDivisionError` is the
ZeroDivisionError raised by `/` or `//` on a zero divisor — likewise an
"InvalidInput" condition in the spec's vocabulary. -/
inductive PyError
  | keyError
  | typeError
  | zeroDivisionError
deriving DecidableEq, Repr

/-- `InfoMessage` of `homework.py`: the computed summary.  The `calories`
argument is `None` when produced by the base class's `get_spent_calories`
(which just executes `pass`), hence `Option ℚ`. -/
structure InfoMessage where
  training_type : String
  duration : ℚ
  distance : ℚ
  speed : ℚ
  calories : Option ℚ
deriving DecidableEq, Repr

/-- The class hierarchy of `homework.py` as a tagged variant: the base
class `Training(action, duration, weight)` and its three subclasses
`Running`, `SportsWalking` (extra field `height`) and `Swimming`
(extra fields `length_pool`, `count_pool`). -/
inductive Training
  | base (action : ℚ) (duration : ℚ) (weight : ℚ)
  | running (action : ℚ) (duration : ℚ) (weight : ℚ)
  | sportsWalking (action : ℚ) (duration : ℚ) (weight : ℚ) (height : ℚ)
  | swimming (action : ℚ) (duration : ℚ) (weight : ℚ)
      (length_pool : ℚ) (count_pool : ℚ)
deriving DecidableEq, Repr

namespace Training

/-- The `action` attribute, set by `Training.__init__`. -/
def action : Training → ℚ
  | base a _ _ => a
  | running a _ _ => a
  | sportsWalking a _ _ _ => a
  | swimming a _ _ _ _ => a

/-- The `duration` attribute, set by `Training.__init__`. -/
def duration : Training → ℚ
  | base _ d _ => d
  | running _ d _ => d
  | sportsWalking _ d _ _ => d
  | swimming _ d _ _ _ => d

/-- The `weight` attribute, set by `Training.__init__`. -/
def weight : Training → ℚ
  | base _ _ w => w
  | running _ _ w => w
  | sportsWalking _ _ w _ => w
  | swimming _ _ w _ _ => w

/-- Class variable `M_IN_KM = 1000`. -/
def M_IN_KM : ℚ := 1000

/-- Class variable `LEN_STEP`: `0.65` on `Training` (inherited by
`Running` and `SportsWalking`), overridden to `1.38` on `Swimming`. -/
def LEN_STEP : Training → ℚ
  | swimming _ _ _ _ _ => 138 / 100
  | _ => 65 / 100

/-- `Training.get_distance`: `self.action * self.LEN_STEP / self.M_IN_KM`.
Inherited unchanged by all three subclasses. -/
def get_distance (t : Training) : ℚ :=
  t.action * t.LEN_STEP / M_IN_KM

/-- Python division: raises ZeroDivisionError on a zero divisor,
otherwise exact quotient (floats modelled over `ℚ`). -/
def pydiv (x y : ℚ) : Except PyError ℚ :=
  if y = 0 then .error .zeroDivisionError else .ok (x / y)

/-- Python floor division `//`: raises ZeroDivisionError on a zero
divisor, otherwise the floor of the quotient (as a float, hence a
value of `ℚ` here). -/
def pyfloordiv (x y : ℚ) : Except PyError ℚ :=
  if y = 0 then .error .zeroDivisionError else .ok (⌊x / y⌋ : ℤ)

/-- `get_mean_speed`: on the base class (and `Running`, `SportsWalking`)
`self.get_distance() / self.duration`; overridden on `Swimming` to
`self.length_pool * self.count_pool / M_IN_KM / self.duration`. -/
def get_mean_speed : Training → Except PyError ℚ
  | swimming _ d _ lp cp => pydiv (lp * cp / M_IN_KM) d
  | t => pydiv t.get_distance t.duration

/-- `get_spent_calories`: the base class body is `pass`, i.e. it returns
`None`; each subclass overrides it with its calorie formula
(`Running`: `(18*speed - 20)*weight / M_IN_KM * (duration*60)`;
`SportsWalking`: `(0.035*weight + speed**2 // height * 0.029 * weight)
* duration * 60`; `Swimming`: `(speed + 1.1) * 2 * weight`). -/
def get_spent_calories : Training → Except PyError (Option ℚ)
  | base _ _ _ => .ok none
  | running a d w => do
      let s ← get_mean_speed (running a d w)
      .ok (some ((18 * s - 20) * w / M_IN_KM * (d * 60)))
  | sportsWalking a d w h => do
      let s ← get_mean_speed (sportsWalking a d w h)
      let q ← pyfloordiv (s ^ 2) h
      .ok (some ((35 / 1000 * w + q * (29 / 1000) * w) * d * 60))
  | swimming a d w lp cp => do
      let s ← get_mean_speed (swimming a d w lp cp)
      .ok (some ((s + 11 / 10) * 2 * w))

/-- `self.__class__.__name__`, as passed to `InfoMessage` by
`show_training_info`. -/
def class_name : Training → String
  | base _ _ _ => "Training"
  | running _ _ _ => "Running"
  | sportsWalking _ _ _ _ => "SportsWalking"
  | swimming _ _ _ _ _ => "Swimming"

/-- `Training.show_training_info`: builds the `InfoMessage` from the
class name, duration, distance, mean speed and calories. -/
def show_training_info (t : Training) : Except PyError InfoMessage := do
  let s ← t.get_mean_speed
  let c ← t.get_spent_calories
  .ok ⟨t.class_name, t.duration, t.get_distance, s, c⟩

end Training

/-- The decimal digit character for `d` (meaningful for `d < 10`). -/
def digitChar (d : ℕ) : Char := Char.ofNat (48 + d)

/-- The three fractional digits of `n` (for `n < 1000`: hundreds, tens,
units), as a three-character string. -/
def frac3 (n : ℕ) : String :=
  String.mk [digitChar (n / 100 % 10), digitChar (n / 10 % 10), digitChar (n % 10)]

/-- Python's fixed-point rendering `{x:.3f}` (over the exact `ℚ` model of
floats): x rounded to 3 decimal places and printed with exactly three
digits after the `.` decimal point. -/
def format3 (q : ℚ) : String :=
  ((if round (q * 1000) < 0 then "-" else "") ++
    toString ((round (q * 1000)).natAbs / 1000)) ++ "." ++
    frac3 ((round (q * 1000)).natAbs % 1000)

/-- `InfoMessage.get_message`: the fixed-template f-string, each numeric
field rendered with `{:.3f}`.  When `calories` is `None` (as produced by
the base class) the `{self.calories:.3f}` placeholder raises TypeError. -/
def InfoMessage.get_message (i : InfoMessage) : Except PyError String :=
  match i.calories with
  | none => .error .typeError
  | some c => .ok
      ("Тип тренировки: " ++ i.training_type ++
       "; Длительность: " ++ format3 i.duration ++
       " ч.; Дистанция: " ++ format3 i.distance ++
       " км; Ср. скорость: " ++ format3 i.speed ++
       " км/ч; Потрачено ккал: " ++ format3 c ++ ".")

/-- `read_package`: dictionary dispatch from the workout-type code to a
constructor, applied to the unpacked data list.  An unknown code raises
KeyError at the lookup (before any constructor runs); a data list whose
length does not match the selected constructor's arity raises TypeError. -/
def read_package (workout_type : String) (data : List ℚ) :
    Except PyError Training :=
  if workout_type = "SWM" then
    match data with
    | [a, d, w, lp, cp] => .ok (.swimming a d w lp cp)
    | _ => .error .typeError
  else if workout_type = "RUN" then
    match data with
    | [a, d, w] => .ok (.running a d w)
    | _ => .error .typeError
  else if workout_type = "WLK" then
    match data with
    | [a, d, w, h] => .ok (.sportsWalking a d w h)
    | _ => .error .typeError
  else .error .keyError

/-- A string made of an integer part, the `.` decimal separator, and a
fractional part of exactly three decimal digits. -/
def threeDecimals (s : String) : Prop :=
  ∃ ip f, s = ip ++ "." ++ f ∧ f.length = 3 ∧ f.data.all Char.isDigit = true

theorem digitChar_isDigit (d : ℕ) (h : d < 10) : (digitChar d).isDigit = true := by
  interval_cases d <;> decide

theorem frac3_length (n : ℕ) : (frac3 n).length = 3 := rfl

theorem frac3_digits (n : ℕ) : (frac3 n).data.all Char.isDigit = true := by
  have h1 := digitChar_isDigit (n / 100 % 10) (Nat.mod_lt _ (by norm_num))
  have h2 := digitChar_isDigit (n / 10 % 10) (Nat.mod_lt _ (by norm_num))
  have h3 := digitChar_isDigit (n % 10) (Nat.mod_lt _ (by norm_num))
  simp [frac3, h1, h2, h3]

theorem format3_threeDecimals (q : ℚ) : threeDecimals (format3 q) :=
  ⟨(if round (q * 1000) < 0 then "-" else "") ++
      toString ((round (q * 1000)).natAbs / 1000),
   frac3 ((round (q * 1000)).natAbs % 1000),
   rfl, frac3_length _, frac3_digits _⟩

/-! ## Claim theorems -/

/-- C1: for every workout-type code outside {"SWM", "RUN", "WLK"} (e.g.
"XYZ"), `read_package` fails with the unsupported-workout-type error
(the KeyError of the dictionary lookup, reported to the caller), and no
calculator instance is constructed. -/
theorem read_package_unknown_code (wt : String) (data : List ℚ)
    (h1 : wt ≠ "SWM") (h2 : wt ≠ "RUN") (h3 : wt ≠ "WLK") :
    read_package wt data = .error .keyError ∧
      (read_package wt data).isOk = false := by
  have he : read_package wt data = .error .keyError := by
    simp [read_package, h1, h2, h3]
  exact ⟨he, by rw [he]; rfl⟩

theorem read_package_unknown_code_witness :
    read_package "XYZ" [720, 1, 80] = .error .keyError ∧
      (read_package "XYZ" [720, 1, 80]).isOk = false :=
  read_package_unknown_code "XYZ" [720, 1, 80]
    (by decide) (by decide) (by decide)

/-- C2: for every walking input with duration > 0 and height > 0, the
walking calorie computation returns
`(0.035*weight + (meanSpeed^2 floor-div height) * 0.029 * weight) *
duration * 60` with `meanSpeed = action * 0.65 / 1000 / duration`; at
action=9000, duration=1, weight=75, height=180 it returns 157.5. -/
theorem sportsWalking_calories (a d w h : ℚ) (hd : 0 < d) (hh : 0 < h) :
    Training.get_spent_calories (.sportsWalking a d w h) =
      .ok (some (((35 : ℚ) / 1000 * w +
        (⌊(a * (65 / 100) / 1000 / d) ^ 2 / h⌋ : ℤ) * (29 / 1000) * w) * d * 60)) ∧
    Training.get_spent_calories (.sportsWalking 9000 1 75 180) =
      .ok (some (315 / 2)) := by
  constructor
  · simp [Training.get_spent_calories, Training.get_mean_speed, Training.pydiv,
      Training.pyfloordiv, Training.get_distance, Training.action, Training.LEN_STEP,
      Training.duration, Training.M_IN_KM, bind, Except.bind, hd.ne', hh.ne']
  · simp [Training.get_spent_calories, Training.get_mean_speed, Training.pydiv,
      Training.pyfloordiv, Training.get_distance, Training.action, Training.LEN_STEP,
      Training.duration, Training.M_IN_KM, bind, Except.bind]
    norm_num

theorem sportsWalking_calories_witness :
    Training.get_spent_calories (.sportsWalking 9000 1 75 180) =
      .ok (some (((35 : ℚ) / 1000 * 75 +
        (⌊((9000 : ℚ) * (65 / 100) / 1000 / 1) ^ 2 / 180⌋ : ℤ) * (29 / 1000) * 75)
          * 1 * 60)) ∧
    Training.get_spent_calories (.sportsWalking 9000 1 75 180) =
      .ok (some (315 / 2)) :=
  sportsWalking_calories 9000 1 75 180 (by norm_num) (by norm_num)

/-- C3: for every training whose duration is 0, computing the mean speed
fails explicitly (the ZeroDivisionError of `/`, the condition the spec
labels "InvalidInput") rather than returning an infinite or NaN speed,
and the summary `show_training_info`, which depends on it, fails the
same way. -/
theorem mean_speed_zero_duration (t : Training) (h : t.duration = 0) :
    t.get_mean_speed = .error .zeroDivisionError ∧
      t.show_training_info = .error .zeroDivisionError := by
  cases t <;>
    simp_all [Training.get_mean_speed, Training.pydiv, Training.duration,
      Training.show_training_info, bind, Except.bind]

theorem mean_speed_zero_duration_witness :
    Training.get_mean_speed (.running 15000 0 75) = .error .zeroDivisionError ∧
      Training.show_training_info (.running 15000 0 75) =
        .error .zeroDivisionError :=
  mean_speed_zero_duration (.running 15000 0 75) rfl

/-- C4: for every running input with duration > 0, the running calorie
computation returns `(18 * meanSpeed - 20) * weight / 1000 * duration *
60` with `meanSpeed = action * 0.65 / 1000 / duration`; at action=15000,
duration=1, weight=75 the calories equal 699.75 and the distance equals
9.75. -/
theorem running_calories (a d w : ℚ) (hd : 0 < d) :
    Training.get_spent_calories (.running a d w) =
      .ok (some ((18 * (a * (65 / 100) / 1000 / d) - 20) * w / 1000 * d * 60)) ∧
    Training.get_spent_calories (.running 15000 1 75) =
      .ok (some (69975 / 100)) ∧
    Training.get_distance (.running 15000 1 75) = 975 / 100 := by
  refine ⟨?_, ?_, by norm_num [Training.get_distance, Training.action,
    Training.LEN_STEP, Training.M_IN_KM]⟩
  · simp [Training.get_spent_calories, Training.get_mean_speed, Training.pydiv,
      Training.get_distance, Training.action, Training.LEN_STEP, Training.duration,
      Training.M_IN_KM, bind, Except.bind, hd.ne']
    ring
  · simp [Training.get_spent_calories, Training.get_mean_speed, Training.pydiv,
      Training.get_distance, Training.action, Training.LEN_STEP, Training.duration,
      Training.M_IN_KM, bind, Except.bind]
    norm_num

theorem running_calories_witness :
    Training.get_spent_calories (.running 15000 1 75) =
      .ok (some ((18 * ((15000 : ℚ) * (65 / 100) / 1000 / 1) - 20) * 75 / 1000
        * 1 * 60)) ∧
    Training.get_spent_calories (.running 15000 1 75) =
      .ok (some (69975 / 100)) ∧
    Training.get_distance (.running 15000 1 75) = 975 / 100 :=
  running_calories 15000 1 75 (by norm_num)

/-- C5: for every swimming input with duration > 0, the swimming mean
speed equals `poolLength * lapCount / 1000 / duration` — the pool-based
formula; at action=720, duration=1, weight=80, poolLength=25,
lapCount=40 it equals 1. -/
theorem swimming_mean_speed (a d w lp cp : ℚ) (hd : 0 < d) :
    Training.get_mean_speed (.swimming a d w lp cp) =
      .ok (lp * cp / 1000 / d) ∧
    Training.get_mean_speed (.swimming 720 1 80 25 40) = .ok 1 := by
  constructor
  · simp [Training.get_mean_speed, Training.pydiv, Training.M_IN_KM, hd.ne',
      div_div]
  · simp [Training.get_mean_speed, Training.pydiv, Training.M_IN_KM]
    norm_num

theorem swimming_mean_speed_witness :
    Training.get_mean_speed (.swimming 720 1 80 25 40) =
      .ok ((25 : ℚ) * 40 / 1000 / 1) ∧
    Training.get_mean_speed (.swimming 720 1 80 25 40) = .ok 1 :=
  swimming_mean_speed 720 1 80 25 40 (by norm_num)

/-- C6: for every workout, distance = action * stepLength / 1000
kilometers, where stepLength (`LEN_STEP`) is 0.65 for running and
walking and 1.38 for swimming. -/
theorem distance_formula (t : Training) (a d w h lp cp : ℚ) :
    t.get_distance = t.action * t.LEN_STEP / 1000 ∧
    Training.LEN_STEP (.running a d w) = 65 / 100 ∧
    Training.LEN_STEP (.sportsWalking a d w h) = 65 / 100 ∧
    Training.LEN_STEP (.swimming a d w lp cp) = 138 / 100 :=
  ⟨rfl, rfl, rfl, rfl⟩

/-- C7: for every swimming input with duration > 0, the calorie
computation returns `(meanSpeed + 1.1) * 2 * weight`, with the mean
speed given by the pool-based formula. -/
theorem swimming_calories (a d w lp cp : ℚ) (hd : 0 < d) :
    Training.get_spent_calories (.swimming a d w lp cp) =
      .ok (some ((lp * cp / 1000 / d + 11 / 10) * 2 * w)) := by
  simp [Training.get_spent_calories, Training.get_mean_speed, Training.pydiv,
    Training.M_IN_KM, bind, Except.bind, hd.ne', div_div]

theorem swimming_calories_witness :
    Training.get_spent_calories (.swimming 720 1 80 25 40) =
      .ok (some (((25 : ℚ) * 40 / 1000 / 1 + 11 / 10) * 2 * 80)) :=
  swimming_calories 720 1 80 25 40 (by norm_num)

/-- C8: for every `InfoMessage` whose calories field carries a number
(i.e. every ComputedSummary), `get_message` returns the single
fixed-template string in which each of the four numeric fields is
rendered with exactly 3 decimal places after the `.` separator, and
invoking it twice on the same message yields identical text. -/
theorem get_message_format (i : InfoMessage) (c : ℚ) (h : i.calories = some c) :
    i.get_message = .ok
      ("Тип тренировки: " ++ i.training_type ++
       "; Длительность: " ++ format3 i.duration ++
       " ч.; Дистанция: " ++ format3 i.distance ++
       " км; Ср. скорость: " ++ format3 i.speed ++
       " км/ч; Потрачено ккал: " ++ format3 c ++ ".") ∧
    threeDecimals (format3 i.duration) ∧ threeDecimals (format3 i.distance) ∧
    threeDecimals (format3 i.speed) ∧ threeDecimals (format3 c) ∧
    i.get_message = i.get_message := by
  refine ⟨?_, format3_threeDecimals _, format3_threeDecimals _,
    format3_threeDecimals _, format3_threeDecimals _, rfl⟩
  simp [InfoMessage.get_message, h]

theorem get_message_format_witness :
    InfoMessage.get_message ⟨"Running", 1, 975 / 100, 975 / 100,
        some (69975 / 100)⟩ = .ok
      ("Тип тренировки: " ++ "Running" ++
       "; Длительность: " ++ format3 1 ++
       " ч.; Дистанция: " ++ format3 (975 / 100) ++
       " км; Ср. скорость: " ++ format3 (975 / 100) ++
       " км/ч; Потрачено ккал: " ++ format3 (69975 / 100) ++ ".") ∧
    threeDecimals (format3 1) ∧ threeDecimals (format3 (975 / 100)) ∧
    threeDecimals (format3 (975 / 100)) ∧ threeDecimals (format3 (69975 / 100)) ∧
    InfoMessage.get_message ⟨"Running", 1, 975 / 100, 975 / 100,
        some (69975 / 100)⟩ =
      InfoMessage.get_message ⟨"Running", 1, 975 / 100, 975 / 100,
        some (69975 / 100)⟩ :=
  get_message_format ⟨"Running", 1, 975 / 100, 975 / 100, some (69975 / 100)⟩
    (69975 / 100) rfl

/-- C9: the base class's `get_spent_calories` returns `None`; hence a
`Training` instance that is none of the three specialized subtypes
yields an `InfoMessage` whose calories field is not a number, and
formatting that message fails (the TypeError of `{None:.3f}`) rather
than yielding a summary line. -/
theorem base_spent_calories_none (a d w : ℚ) (hd : d ≠ 0) :
    Training.get_spent_calories (.base a d w) = .ok none ∧
    Training.show_training_info (.base a d w) =
      .ok ⟨"Training", d, a * (65 / 100) / 1000, a * (65 / 100) / 1000 / d, none⟩ ∧
    InfoMessage.get_message
        ⟨"Training", d, a * (65 / 100) / 1000, a * (65 / 100) / 1000 / d, none⟩ =
      .error .typeError := by
  refine ⟨rfl, ?_, rfl⟩
  simp [Training.show_training_info, Training.get_spent_calories,
    Training.get_mean_speed, Training.pydiv, Training.get_distance,
    Training.action, Training.duration, Training.LEN_STEP, Training.M_IN_KM,
    Training.class_name, bind, Except.bind, hd]

theorem base_spent_calories_none_witness :
    Training.get_spent_calories (.base 9000 1 75) = .ok none ∧
    Training.show_training_info (.base 9000 1 75) =
      .ok ⟨"Training", 1, (9000 : ℚ) * (65 / 100) / 1000,
        (9000 : ℚ) * (65 / 100) / 1000 / 1, none⟩ ∧
    InfoMessage.get_message
        ⟨"Training", 1, (9000 : ℚ) * (65 / 100) / 1000,
          (9000 : ℚ) * (65 / 100) / 1000 / 1, none⟩ =
      .error .typeError :=
  base_spent_calories_none 9000 1 75 (by norm_num)

/-- C10: the swimming distance is `action * 1.38 / 1000`, independent of
pool length and lap count; for running and walking the identity
`distance = meanSpeed * duration` holds, but for swimming it fails (at
the demo input the mean speed is 1 km/h over 1 h while the distance is
0.9936 km). -/
theorem swimming_distance_pool_independent
    (a d w lp cp lp2 cp2 a2 d2 w2 a3 d3 w3 h3 : ℚ)
    (hd2 : d2 ≠ 0) (hd3 : d3 ≠ 0) :
    Training.get_distance (.swimming a d w lp cp) = a * (138 / 100) / 1000 ∧
    Training.get_distance (.swimming a d w lp cp) =
      Training.get_distance (.swimming a d w lp2 cp2) ∧
    Training.get_mean_speed (.running a2 d2 w2) =
      .ok (Training.get_distance (.running a2 d2 w2) / d2) ∧
    Training.get_distance (.running a2 d2 w2) / d2 * d2 =
      Training.get_distance (.running a2 d2 w2) ∧
    Training.get_mean_speed (.sportsWalking a3 d3 w3 h3) =
      .ok (Training.get_distance (.sportsWalking a3 d3 w3 h3) / d3) ∧
    Training.get_distance (.sportsWalking a3 d3 w3 h3) / d3 * d3 =
      Training.get_distance (.sportsWalking a3 d3 w3 h3) ∧
    Training.get_mean_speed (.swimming 720 1 80 25 40) = .ok 1 ∧
    Training.get_distance (.swimming 720 1 80 25 40) ≠ 1 * 1 := by
  refine ⟨rfl, rfl, ?_, div_mul_cancel₀ _ hd2, ?_, div_mul_cancel₀ _ hd3,
    ?_, ?_⟩
  · simp [Training.get_mean_speed, Training.pydiv, Training.duration, hd2]
  · simp [Training.get_mean_speed, Training.pydiv, Training.duration, hd3]
  · simp [Training.get_mean_speed, Training.pydiv, Training.M_IN_KM]
    norm_num
  · norm_num [Training.get_distance, Training.action, Training.LEN_STEP,
      Training.M_IN_KM]

theorem swimming_distance_pool_independent_witness :
    Training.get_distance (.swimming 720 1 80 25 40) =
      (720 : ℚ) * (138 / 100) / 1000 ∧
    Training.get_distance (.swimming 720 1 80 25 40) =
      Training.get_distance (.swimming 720 1 80 100 0) ∧
    Training.get_mean_speed (.running 15000 1 75) =
      .ok (Training.get_distance (.running 15000 1 75) / 1) ∧
    Training.get_distance (.running 15000 1 75) / 1 * 1 =
      Training.get_distance (.running 15000 1 75) ∧
    Training.get_mean_speed (.sportsWalking 9000 1 75 180) =
      .ok (Training.get_distance (.sportsWalking 9000 1 75 180) / 1) ∧
    Training.get_distance (.sportsWalking 9000 1 75 180) / 1 * 1 =
      Training.get_distance (.sportsWalking 9000 1 75 180) ∧
    Training.get_mean_speed (.swimming 720 1 80 25 40) = .ok 1 ∧
    Training.get_distance (.swimming 720 1 80 25 40) ≠ 1 * 1 :=
  swimming_distance_pool_independent 720 1 80 25 40 100 0 15000 1 75 9000 1 75 180
    (by norm_num) (by norm_num)
